import Mathlib

/-!
Verification of the request-telemetry assembly path (appinsights, telemetry/request.rs).

The development shallowly embeds the data model and the operations of the
request module: string maps and their combine operation, the HTTP method and
status code, the URI rebuild performed at record construction, the dotnet-style
duration formatter, the RFC 3339 millisecond timestamp renderer, the record
type itself and the envelope construction.  Machine integers are modelled as
Nat (the Rust arithmetic involved never overflows: as_nanos is u128 and the
inputs are u64 seconds plus sub-second nanoseconds).
-/

namespace AppInsights

/-! ### String maps

The repository stores properties and tags in ordered string maps with unique
keys.  They are embedded as association lists; `mapLookup` finds the first
binding of a key, `mapInsert` replaces the binding of an existing key and
appends otherwise, `mapKeys` lists the keys. -/

def mapLookup {α : Type} : List (String × α) → String → Option α
  | [], _ => none
  | (k0, v0) :: rest, k => if k0 = k then some v0 else mapLookup rest k

def mapInsert {α : Type} : List (String × α) → String → α → List (String × α)
  | [], k, v => [(k, v)]
  | (k0, v0) :: rest, k, v =>
    if k0 = k then (k0, v) :: rest else (k0, v0) :: mapInsert rest k v

def mapKeys {α : Type} (m : List (String × α)) : List String :=
  m.map Prod.fst

/-- Modelled from the spec: the merge of a base (context-level) map with an
override (record-level) map keeps every base entry unless an override entry
shares its key, in which case the override value wins; the key set of the
result is the union of both key sets.  The combine functions themselves live
in the telemetry module of the crate, outside the translated file. -/
def mapCombine {α : Type} (base override : List (String × α)) : List (String × α) :=
  override ++ base.filter (fun p => (mapLookup override p.1).isNone)

/-- Modelled from the spec: Properties::combine, context map as base and
record map as override. -/
def Properties.combine (base override : List (String × String)) : List (String × String) :=
  mapCombine base override

/-- Modelled from the spec: ContextTags::combine, identical merge rule as for
properties. -/
def ContextTags.combine (base override : List (String × String)) : List (String × String) :=
  mapCombine base override

/-! ### HTTP method and status code -/

inductive Method where
  | GET | POST | PUT | DELETE | HEAD | OPTIONS | PATCH | CONNECT | TRACE
deriving DecidableEq

def Method.toStr : Method → String
  | .GET => "GET"
  | .POST => "POST"
  | .PUT => "PUT"
  | .DELETE => "DELETE"
  | .HEAD => "HEAD"
  | .OPTIONS => "OPTIONS"
  | .PATCH => "PATCH"
  | .CONNECT => "CONNECT"
  | .TRACE => "TRACE"

/-! ### URIs and the rebuild step of RequestTelemetry::new

The external http crate (v0.2) represents a URI by optional scheme, optional
authority (host and port; userinfo plays no role here) and a path plus
optional query.  RequestTelemetry::new reassembles the URI through
Uri::builder from the scheme string (empty when absent), an authority string
"host[:port]" and the query-free path, and falls back to the original URI
when the build fails. -/

structure Uri where
  scheme : Option String
  host : Option String
  port : Option Nat
  path : String
  query : Option String
deriving DecidableEq

def Uri.toString (u : Uri) : String :=
  (match u.scheme with | some s => s ++ "://" | none => "")
    ++ u.host.getD ""
    ++ (match u.port with | some p => ":" ++ ToString.toString p | none => "")
    ++ u.path
    ++ (match u.query with | some q => "?" ++ q | none => "")

/-- Valid scheme characters of the http crate: alphanumerics, plus, minus and
dot; a colon or any other character is rejected. -/
def schemeCharOk (c : Char) : Bool :=
  c.isAlphanum || c == '+' || c == '-' || c == '.'

/-- Scheme parsing of the http crate: rejects schemes longer than 64 bytes or
containing an invalid character.  The empty string passes the character scan
and is accepted as an opaque scheme; nothing proved below depends on that
corner. -/
def Scheme.tryFrom (s : String) : Option String :=
  if s.length > 64 then none
  else if s.data.all schemeCharOk then some s else none

/-- Authority parsing of the http crate: the empty string is rejected
(ErrorKind::Empty), as is any authority containing a path, query or fragment
delimiter or whitespace. -/
def Authority.tryFrom (s : String) : Option String :=
  if s.isEmpty then none
  else if s.data.all (fun c => !(c == '/' || c == '?' || c == '#' || c == ' ')) then some s
  else none

/-- Path-and-query parsing of the http crate: rejects fragment delimiters and
whitespace; the paths fed to it here come from an already parsed URI. -/
def PathAndQuery.tryFrom (s : String) : Option String :=
  if s.data.all (fun c => !(c == '#' || c == ' ')) then some s else none

/-- The authority string assembled in RequestTelemetry::new: host when
present, then ":port" when present. -/
def Uri.authorityString (u : Uri) : String :=
  u.host.getD "" ++ (match u.port with | some p => ":" ++ ToString.toString p | none => "")

/-- The Uri::builder round trip of RequestTelemetry::new: scheme from the
original (empty string when absent), authority "host[:port]", the query-free
path; any parse failure makes the whole build fail.  On success the built URI
carries the same host and port (the builder parses them back out of the very
authority string assembled from them) and no query. -/
def rebuildUri (u : Uri) : Option Uri :=
  match Scheme.tryFrom (u.scheme.getD ""), Authority.tryFrom u.authorityString,
        PathAndQuery.tryFrom u.path with
  | some sch, some _, some p => some ⟨some sch, u.host, u.port, p, none⟩
  | _, _, _ => none

/-! ### Durations and the dotnet-style formatter -/

structure Duration where
  secs : Nat
  nanos : Nat
deriving DecidableEq

def Duration.as_nanos (d : Duration) : Nat :=
  d.secs * 1000000000 + d.nanos

def Duration.from_secs (s : Nat) : Duration := ⟨s, 0⟩

def Duration.from_millis (ms : Nat) : Duration := ⟨ms / 1000, ms % 1000 * 1000000⟩

def Duration.from_nanos (n : Nat) : Duration := ⟨n / 1000000000, n % 1000000000⟩

/-- Zero left padding to a given width, the Rust format specifier {:0>w}
applied to a decimal rendering: the digits of n preceded by as many zero
characters as needed to reach the width, never truncating. -/
def padZero (width n : Nat) : String :=
  let s := Nat.toDigits 10 n
  String.mk (List.replicate (width - s.length) '0' ++ s)

structure FormattedDuration where
  val : Duration
deriving DecidableEq

/-- Display for FormattedDuration: "D.HH:MM:SS.FFFFFFF". -/
def FormattedDuration.fmt (f : FormattedDuration) : String :=
  let nanoseconds := f.val.as_nanos
  let ticks := nanoseconds / 100 % 10000000
  let total_seconds := nanoseconds / 1000000000
  let seconds := total_seconds % 60
  let minutes := total_seconds / 60 % 60
  let hours := total_seconds / 3600 % 24
  let days := total_seconds / 86400
  ToString.toString days ++ "." ++ padZero 2 hours ++ ":" ++ padZero 2 minutes
    ++ ":" ++ padZero 2 seconds ++ "." ++ padZero 7 ticks

/-- The duration string exactly as the spec derives it, written from the
spec formulas over total nanoseconds T, for comparison with the formatter
translated from the code. -/
def durationSpecString (T : Nat) : String :=
  ToString.toString (T / 1000000000 / 86400) ++ "."
    ++ padZero 2 (T / 1000000000 / 3600 % 24) ++ ":"
    ++ padZero 2 (T / 1000000000 / 60 % 60) ++ ":"
    ++ padZero 2 (T / 1000000000 % 60) ++ "."
    ++ padZero 7 (T / 100 % 10000000)

/-! ### Timestamps and the RFC 3339 millisecond renderer

The chrono DateTime of Utc is embedded as a calendar record; its invariant
keeps the sub-second part below one second (leap-second smearing aside, which
neither the clock service nor the tests produce).  to_rfc3339_opts with
SecondsFormat::Millis and use_z rendering is a fixed-width formatter: date and
time fields zero-padded, exactly three fractional digits obtained by
truncating the nanosecond field to milliseconds, and a literal Z. -/

structure DateTime where
  year : Nat
  month : Nat
  day : Nat
  hour : Nat
  minute : Nat
  second : Nat
  nanosecond : Nat
  nanosecond_lt : nanosecond < 1000000000

def datePart (t : DateTime) : String :=
  padZero 4 t.year ++ "-" ++ padZero 2 t.month ++ "-" ++ padZero 2 t.day
    ++ "T" ++ padZero 2 t.hour ++ ":" ++ padZero 2 t.minute ++ ":" ++ padZero 2 t.second

def millisPart (t : DateTime) : String :=
  padZero 3 (t.nanosecond / 1000000)

def DateTime.toRfc3339Millis (t : DateTime) : String :=
  datePart t ++ "." ++ millisPart t ++ "Z"

/-! ### The request record -/

/-- RequestTelemetry, translated field by field; the uuid id is kept as its
hyphenated string form, measurements map string keys to floating point
values. -/
structure RequestTelemetry where
  id : String
  name : String
  uri : Uri
  duration : FormattedDuration
  response_code : Nat
  timestamp : DateTime
  properties : List (String × String)
  tags : List (String × String)
  measurements : List (String × Float)

/-- RequestTelemetry::new.  The identity and clock services (id::new and
time::now) are injected as explicit arguments per the dependency-injection
reading of the spec; the URI is rebuilt with the query stripped, falling back
to the original URI when the rebuild fails, and the name is derived once from
the method and the resulting URI. -/
def RequestTelemetry.new (method : Method) (uri : Uri) (duration : Duration)
    (response_code : Nat) (id : String) (timestamp : DateTime) : RequestTelemetry :=
  let uri2 := (rebuildUri uri).getD uri
  { id := id
    name := method.toStr ++ " " ++ uri2.toString
    uri := uri2
    duration := FormattedDuration.mk duration
    response_code := response_code
    timestamp := timestamp
    properties := []
    tags := []
    measurements := [] }

/-- RequestTelemetry::is_success: status code strictly below 400
(StatusCode::BAD_REQUEST) or equal to 401 (StatusCode::UNAUTHORIZED). -/
def RequestTelemetry.is_success (t : RequestTelemetry) : Bool :=
  decide (t.response_code < 400) || t.response_code == 401

/-- Insertion through the mutable reference returned by properties_mut. -/
def RequestTelemetry.insertProperty (t : RequestTelemetry) (k v : String) : RequestTelemetry :=
  { t with properties := mapInsert t.properties k v }

/-- Insertion through the mutable reference returned by tags_mut. -/
def RequestTelemetry.insertTag (t : RequestTelemetry) (k v : String) : RequestTelemetry :=
  { t with tags := mapInsert t.tags k v }

/-- Insertion through the mutable reference returned by measurements_mut. -/
def RequestTelemetry.insertMeasurement (t : RequestTelemetry) (k : String) (v : Float) :
    RequestTelemetry :=
  { t with measurements := mapInsert t.measurements k v }

/-! ### Context and envelope -/

/-- Modelled from the spec: the telemetry context, read-only here, holds the
raw instrumentation key, its normalized form and the process-wide default
tag and property maps.  The context type lives outside the translated file. -/
structure TelemetryContext where
  i_key : String
  normalized_i_key : String
  tags : List (String × String)
  properties : List (String × String)

/-- Modelled from the spec: the RequestData payload assembled by
RequestDataBuilder, carrying id, duration string, response-code string, name,
success flag, url, merged properties and pass-through measurements. -/
structure RequestData where
  id : String
  duration : String
  response_code : String
  name : String
  success : Bool
  url : String
  properties : List (String × String)
  measurements : List (String × Float)

/-- Modelled from the spec: the immutable wire envelope with its derived
name, RFC 3339 millisecond timestamp, raw instrumentation key, merged tags
and the request payload. -/
structure Envelope where
  name : String
  time : String
  i_key : String
  tags : List (String × String)
  data : RequestData

/-- Modelled from the spec: Data::envelope_name for request data follows the
pattern Vendor.InstrumentationKey.Kind with the fixed vendor
"Microsoft.ApplicationInsights" and kind "Request", as pinned by the module
test expecting "Microsoft.ApplicationInsights.instrumentation.Request". -/
def envelope_name (normalized_i_key : String) : String :=
  "Microsoft.ApplicationInsights." ++ normalized_i_key ++ ".Request"

/-- From for Envelope over (TelemetryContext, RequestTelemetry): classifies
success, renders id, duration and response code, copies name and url from the
record, merges properties and tags with the context as base, passes
measurements through, renders the timestamp with millisecond precision and
stamps the raw instrumentation key. -/
def Envelope.build (context : TelemetryContext) (telemetry : RequestTelemetry) : Envelope :=
  let success := telemetry.is_success
  let data : RequestData :=
    { id := telemetry.id
      duration := telemetry.duration.fmt
      response_code := ToString.toString telemetry.response_code
      name := telemetry.name
      success := success
      url := telemetry.uri.toString
      properties := Properties.combine context.properties telemetry.properties
      measurements := telemetry.measurements }
  { name := envelope_name context.normalized_i_key
    time := telemetry.timestamp.toRfc3339Millis
    i_key := context.i_key
    tags := ContextTags.combine context.tags telemetry.tags
    data := data }

/-! ### Concrete fixtures, used by the closed instances below -/

def ts0 : DateTime := ⟨2019, 1, 2, 3, 4, 5, 800000000, by decide⟩

def tsCoarse : DateTime := ⟨2019, 1, 2, 3, 4, 5, 0, by decide⟩

def tsFine : DateTime := ⟨2019, 1, 2, 3, 4, 5, 123456789, by decide⟩

/-- The URI of the end-to-end example: GET https://example.com/main.html?x=1. -/
def exUri : Uri := ⟨some "https", some "example.com", none, "/main.html", some "x=1"⟩

/-- An origin-form URI with neither scheme nor host: its assembled authority
string is empty, so the rebuild fails and the original URI is kept. -/
def uF : Uri := ⟨none, none, none, "/path", some "q=1"⟩

/-- An authority-form URI without a scheme: the rebuild succeeds with an
empty scheme component. -/
def uH : Uri := ⟨none, some "example.com", none, "", none⟩

def emptyContext : TelemetryContext := ⟨"", "", [], []⟩

def exRecord : RequestTelemetry :=
  RequestTelemetry.new Method.GET exUri (Duration.from_secs 2) 200
    "910b414a-f368-4b3a-aff6-326632aac566" ts0

def base0 : List (String × String) := [("test", "ok"), ("no-write", "fail")]

def override0 : List (String × String) := [("no-write", "ok")]

/-! ### Map lemmas -/

theorem mapLookup_append_some {α : Type} (xs ys : List (String × α)) (k : String) (v : α)
    (h : mapLookup xs k = some v) : mapLookup (xs ++ ys) k = some v := by
  induction xs with
  | nil => simp [mapLookup] at h
  | cons p rest ih =>
    obtain ⟨k0, v0⟩ := p
    by_cases hk : k0 = k
    · simp only [mapLookup, hk, if_pos rfl, List.cons_append] at h ⊢
      exact h
    · simp only [mapLookup, hk, if_neg hk, List.cons_append] at h ⊢
      exact ih h

theorem mapLookup_append_none {α : Type} (xs ys : List (String × α)) (k : String)
    (h : mapLookup xs k = none) : mapLookup (xs ++ ys) k = mapLookup ys k := by
  induction xs with
  | nil => rfl
  | cons p rest ih =>
    obtain ⟨k0, v0⟩ := p
    by_cases hk : k0 = k
    · simp only [mapLookup, if_pos hk] at h
      exact absurd h (by simp)
    · simp only [mapLookup, if_neg hk, List.cons_append] at h ⊢
      exact ih h

theorem mapLookup_filter_of_none {α : Type} (base override : List (String × α)) (k : String)
    (h : mapLookup override k = none) :
    mapLookup (base.filter (fun p => (mapLookup override p.1).isNone)) k = mapLookup base k := by
  induction base with
  | nil => rfl
  | cons p rest ih =>
    obtain ⟨k0, v0⟩ := p
    by_cases hk : k0 = k
    · subst hk
      have hp : (mapLookup override k0).isNone = true := by simp [h]
      simp [List.filter_cons, hp, mapLookup, ih]
    · cases hfp : (mapLookup override k0).isNone with
      | true => simp [List.filter_cons, hfp, mapLookup, hk, ih]
      | false => simp [List.filter_cons, hfp, mapLookup, hk, ih]

theorem mem_mapKeys_iff {α : Type} (m : List (String × α)) (k : String) :
    k ∈ mapKeys m ↔ (mapLookup m k).isSome = true := by
  induction m with
  | nil => simp [mapKeys, mapLookup]
  | cons p rest ih =>
    obtain ⟨k0, v0⟩ := p
    by_cases hk : k0 = k
    · simp [mapKeys, mapLookup, hk]
    · have hk2 : ¬ k = k0 := fun hkk => hk hkk.symm
      rw [show mapKeys ((k0, v0) :: rest) = k0 :: mapKeys rest from rfl, List.mem_cons, ih]
      simp only [mapLookup, if_neg hk]
      simp [hk2]

theorem mapCombine_lookup {α : Type} (base override : List (String × α)) (k : String) :
    mapLookup (mapCombine base override) k =
      ((mapLookup override k).rec (mapLookup base k) (fun v => some v)) := by
  cases h : mapLookup override k with
  | some v => exact mapLookup_append_some _ _ _ _ h
  | none =>
    rw [mapCombine, mapLookup_append_none _ _ _ h, mapLookup_filter_of_none _ _ _ h]

theorem mapCombine_mem_keys {α : Type} (base override : List (String × α)) (k : String) :
    k ∈ mapKeys (mapCombine base override) ↔ k ∈ mapKeys base ∨ k ∈ mapKeys override := by
  rw [mem_mapKeys_iff, mem_mapKeys_iff, mem_mapKeys_iff, mapCombine_lookup]
  cases h : mapLookup override k <;> simp

theorem mapCombine_lookup_of_isSome {α : Type} (base override : List (String × α))
    (k : String) (h : (mapLookup override k).isSome = true) :
    mapLookup (mapCombine base override) k = mapLookup override k := by
  rw [mapCombine_lookup]
  cases hv : mapLookup override k with
  | none => rw [hv] at h; exact absurd h (by simp)
  | some v => rfl

theorem mapCombine_lookup_of_isNone {α : Type} (base override : List (String × α))
    (k : String) (h : (mapLookup override k).isSome = false) :
    mapLookup (mapCombine base override) k = mapLookup base k := by
  rw [mapCombine_lookup]
  cases hv : mapLookup override k with
  | none => rfl
  | some v => rw [hv] at h; exact absurd h (by simp)

/-! ### Digit string lemmas -/

theorem digitChar_isDigit (k : Nat) (h : k < 10) : (Nat.digitChar k).isDigit = true := by
  interval_cases k <;> decide

theorem toDigitsCore_all_isDigit (f : Nat) : ∀ (n : Nat) (l : List Char),
    (∀ c ∈ l, c.isDigit = true) → ∀ c ∈ Nat.toDigitsCore 10 f n l, c.isDigit = true := by
  induction f with
  | zero => intro n l hl c hc; exact hl c hc
  | succ f ih =>
    intro n l hl c hc
    simp only [Nat.toDigitsCore] at hc
    split at hc
    · rcases List.mem_cons.mp hc with h | h
      · subst h; exact digitChar_isDigit _ (Nat.mod_lt _ (by decide))
      · exact hl c h
    · refine ih (n / 10) _ ?_ c hc
      intro c2 hc2
      rcases List.mem_cons.mp hc2 with h | h
      · subst h; exact digitChar_isDigit _ (Nat.mod_lt _ (by decide))
      · exact hl c2 h

theorem toDigits_all_isDigit (n : Nat) : ∀ c ∈ Nat.toDigits 10 n, c.isDigit = true :=
  toDigitsCore_all_isDigit (n + 1) n [] (by simp)

theorem toDigits_length_le (n e : Nat) (h0 : 0 < e) (h : n < 10 ^ e) :
    (Nat.toDigits 10 n).length ≤ e :=
  Nat.repr_length n e h0 h

theorem padZero_length (w n : Nat) (h : (Nat.toDigits 10 n).length ≤ w) :
    (padZero w n).length = w := by
  have hmk : ∀ l : List Char, (String.mk l).length = l.length := fun _ => rfl
  unfold padZero
  rw [hmk]
  simp only [List.length_append, List.length_replicate]
  omega

theorem padZero_all_isDigit (w n : Nat) : ((padZero w n).data.all Char.isDigit) = true := by
  unfold padZero
  simp only [List.all_append, List.all_eq_true, Bool.and_eq_true]
  constructor
  · intro c hc
    rw [List.eq_of_mem_replicate hc]
    decide
  · intro c hc
    exact toDigits_all_isDigit n c hc

/-! ### Claim theorems -/

/-- C1: for every request record, is_success returns true exactly when the
status code of the record is strictly below 400 or equal to 401, and every
other code at or above 400 (403 among them) yields false. -/
theorem is_success_boundary (t : RequestTelemetry) :
    (t.is_success = true ↔ (t.response_code < 400 ∨ t.response_code = 401)) ∧
    (400 ≤ t.response_code → t.response_code ≠ 401 → t.is_success = false) := by
  constructor
  · simp [RequestTelemetry.is_success]
  · intro h1 h2
    simp only [RequestTelemetry.is_success, Bool.or_eq_false_iff, decide_eq_false_iff_not,
      Nat.not_lt, beq_eq_false_iff_ne, ne_eq]
    exact ⟨h1, h2⟩

theorem is_success_boundary_witness :
    (RequestTelemetry.new Method.GET exUri (Duration.from_secs 2) 403 "id0" ts0).is_success
      = false :=
  (is_success_boundary
    (RequestTelemetry.new Method.GET exUri (Duration.from_secs 2) 403 "id0" ts0)).2
    (by decide) (by decide)

/-- C2: for every total nanosecond count T the duration formatter produces
exactly the string D.HH:MM:SS.FFFFFFF derived by the spec formulas (ticks,
seconds, minutes, hours zero-padded, days unpadded), and in particular 3600
seconds map to "0.01:00:00.0000000" and 100 nanoseconds to
"0.00:00:00.0000001", along with the remaining documented examples. -/
theorem formatted_duration_spec :
    (∀ T : Nat, FormattedDuration.fmt ⟨Duration.from_nanos T⟩ = durationSpecString T) ∧
    FormattedDuration.fmt ⟨Duration.from_secs 3600⟩ = "0.01:00:00.0000000" ∧
    FormattedDuration.fmt ⟨Duration.from_nanos 100⟩ = "0.00:00:00.0000001" ∧
    FormattedDuration.fmt ⟨Duration.from_secs 60⟩ = "0.00:01:00.0000000" ∧
    FormattedDuration.fmt ⟨Duration.from_secs 1⟩ = "0.00:00:01.0000000" ∧
    FormattedDuration.fmt ⟨Duration.from_millis 1⟩ = "0.00:00:00.0010000" ∧
    FormattedDuration.fmt ⟨Duration.from_secs 176523⟩ = "2.01:02:03.0000000" := by
  refine ⟨fun T => ?_, rfl, rfl, rfl, rfl, rfl, rfl⟩
  have h : T / 1000000000 * 1000000000 + T % 1000000000 = T := by omega
  simp only [FormattedDuration.fmt, durationSpecString, Duration.as_nanos, Duration.from_nanos]
  rw [h]

/-- C3: for every base map and override map, the lookup of the merged map
agrees with the override wherever the override binds the key, agrees with the
base wherever the override does not, and the key set of the merge is the
union of both key sets; identically for the properties combine and the tags
combine. -/
theorem combine_override_wins (base override : List (String × String)) (k : String) :
    ((mapLookup override k).isSome = true →
      mapLookup (Properties.combine base override) k = mapLookup override k) ∧
    ((mapLookup override k).isSome = false →
      mapLookup (Properties.combine base override) k = mapLookup base k) ∧
    (k ∈ mapKeys (Properties.combine base override) ↔
      k ∈ mapKeys base ∨ k ∈ mapKeys override) ∧
    ((mapLookup override k).isSome = true →
      mapLookup (ContextTags.combine base override) k = mapLookup override k) ∧
    ((mapLookup override k).isSome = false →
      mapLookup (ContextTags.combine base override) k = mapLookup base k) ∧
    (k ∈ mapKeys (ContextTags.combine base override) ↔
      k ∈ mapKeys base ∨ k ∈ mapKeys override) :=
  ⟨mapCombine_lookup_of_isSome base override k,
   mapCombine_lookup_of_isNone base override k,
   mapCombine_mem_keys base override k,
   mapCombine_lookup_of_isSome base override k,
   mapCombine_lookup_of_isNone base override k,
   mapCombine_mem_keys base override k⟩

theorem combine_override_wins_witness :
    mapLookup (Properties.combine base0 override0) "no-write" = mapLookup override0 "no-write" ∧
    mapLookup (Properties.combine base0 override0) "test" = mapLookup base0 "test" :=
  ⟨(combine_override_wins base0 override0 "no-write").1 (by decide),
   (combine_override_wins base0 override0 "test").2.1 (by decide)⟩

/-- C4: record construction is total in the URI: whatever the input URI, when
the rebuild of the normalized form fails the original unmodified URI is
stored, and when it succeeds the rebuilt URI is stored; no error ever reaches
the caller. -/
theorem new_normalization_total (m : Method) (u : Uri) (d : Duration) (c : Nat)
    (i : String) (ts : DateTime) :
    (rebuildUri u = none → (RequestTelemetry.new m u d c i ts).uri = u) ∧
    (∀ v, rebuildUri u = some v → (RequestTelemetry.new m u d c i ts).uri = v) := by
  constructor
  · intro h
    simp [RequestTelemetry.new, h]
  · intro v h
    simp [RequestTelemetry.new, h]

theorem new_normalization_total_witness :
    (RequestTelemetry.new Method.GET uF (Duration.from_secs 2) 500 "id0" ts0).uri = uF :=
  (new_normalization_total Method.GET uF (Duration.from_secs 2) 500 "id0" ts0).1 (by decide)

/-- C5 counterexample: for the scheme-less origin-form URI /path?q=1 the
rebuild fails (the assembled authority string is empty and is rejected), so
the stored URI is the original one, query included and without any empty
scheme component; the result is not the normalized empty-scheme form the
claim describes. -/
theorem scheme_absent_cex :
    uF.scheme = none ∧ rebuildUri uF = none ∧
    (RequestTelemetry.new Method.GET uF (Duration.from_secs 2) 200 "id0" ts0).uri = uF ∧
    (RequestTelemetry.new Method.GET uF (Duration.from_secs 2) 200 "id0" ts0).uri.query
      = some "q=1" ∧
    (RequestTelemetry.new Method.GET uF (Duration.from_secs 2) 200 "id0" ts0).uri.scheme
      ≠ some "" :=
  ⟨rfl, by decide, by decide, by decide, by decide⟩

/-- C5 amended: for every input URI whose scheme is absent, record
construction does not fail: an empty scheme component is substituted into the
reconstruction attempt, the record keeps the rebuilt URI when the rebuild
succeeds (and that URI indeed carries an empty scheme component), and it
keeps the original URI unchanged when the rebuild fails. -/
theorem scheme_absent_amended (m : Method) (d : Duration) (c : Nat) (i : String)
    (ts : DateTime) (u : Uri) (h : u.scheme = none) :
    (RequestTelemetry.new m u d c i ts).uri = (rebuildUri u).getD u ∧
    ((rebuildUri u).isSome = true → ((rebuildUri u).getD u).scheme = some "") := by
  refine ⟨rfl, fun hs => ?_⟩
  have h0 : u.scheme.getD "" = "" := by rw [h]; rfl
  have h1 : Scheme.tryFrom "" = some "" := by decide
  unfold rebuildUri at hs ⊢
  rw [h0, h1] at hs ⊢
  cases hA : Authority.tryFrom u.authorityString with
  | none =>
    cases hP : PathAndQuery.tryFrom u.path with
    | none => rw [hA, hP] at hs; simp at hs
    | some p => rw [hA, hP] at hs; simp at hs
  | some a =>
    cases hP : PathAndQuery.tryFrom u.path with
    | none => rw [hA, hP] at hs; simp at hs
    | some p => rfl

theorem scheme_absent_amended_witness :
    (RequestTelemetry.new Method.GET uH (Duration.from_secs 2) 200 "id0" ts0).uri
      = (rebuildUri uH).getD uH ∧
    ((rebuildUri uH).getD uH).scheme = some "" :=
  ⟨(scheme_absent_amended Method.GET (Duration.from_secs 2) 200 "id0" ts0 uH (by decide)).1,
   (scheme_absent_amended Method.GET (Duration.from_secs 2) 200 "id0" ts0 uH (by decide)).2
     (by decide)⟩

/-- C6: for every context and record, the built envelope carries the raw
instrumentation key of the context as its iKey, derives its envelope name
from the normalized instrumentation key together with the fixed Request
marker, takes merged tags and merged properties from the combine step, and
takes id, duration string, response-code string, name, success, url and
pass-through measurements from the record. -/
theorem envelope_fields (context : TelemetryContext) (telemetry : RequestTelemetry) :
    (Envelope.build context telemetry).i_key = context.i_key ∧
    (Envelope.build context telemetry).name =
      "Microsoft.ApplicationInsights." ++ context.normalized_i_key ++ ".Request" ∧
    (Envelope.build context telemetry).tags =
      ContextTags.combine context.tags telemetry.tags ∧
    (Envelope.build context telemetry).data.properties =
      Properties.combine context.properties telemetry.properties ∧
    (Envelope.build context telemetry).data.id = telemetry.id ∧
    (Envelope.build context telemetry).data.duration = telemetry.duration.fmt ∧
    (Envelope.build context telemetry).data.response_code =
      ToString.toString telemetry.response_code ∧
    (Envelope.build context telemetry).data.name = telemetry.name ∧
    (Envelope.build context telemetry).data.success = telemetry.is_success ∧
    (Envelope.build context telemetry).data.url = telemetry.uri.toString ∧
    (Envelope.build context telemetry).data.measurements = telemetry.measurements :=
  ⟨rfl, rfl, rfl, rfl, rfl, rfl, rfl, rfl, rfl, rfl, rfl⟩

/-- C7: for every record timestamp the time field rendering is the date-time
part followed by a dot, exactly three fractional digits and a Z suffix; the
fractional part always has length three and consists of decimal digits, as
the concrete renderings at millisecond, zero and nanosecond precision show. -/
theorem rfc3339_millis_exact :
    (∀ t : DateTime, t.toRfc3339Millis = datePart t ++ "." ++ millisPart t ++ "Z" ∧
      (millisPart t).length = 3 ∧ (millisPart t).data.all Char.isDigit = true) ∧
    DateTime.toRfc3339Millis ts0 = "2019-01-02T03:04:05.800Z" ∧
    DateTime.toRfc3339Millis tsCoarse = "2019-01-02T03:04:05.000Z" ∧
    DateTime.toRfc3339Millis tsFine = "2019-01-02T03:04:05.123Z" := by
  refine ⟨fun t => ⟨rfl, ?_, padZero_all_isDigit 3 _⟩, rfl, rfl, rfl⟩
  have hm : t.nanosecond / 1000000 < 1000 := by
    have := t.nanosecond_lt; omega
  exact padZero_length 3 _ (toDigits_length_le _ 3 (by decide) (by simpa using hm))

/-- C8: building the record for GET https://example.com/main.html?x=1 with a
two second duration and status 200, then its envelope over an empty context,
yields the query-stripped url, the name GET followed by the stripped url, the
duration string 0.00:00:02.0000000 and success true. -/
theorem end_to_end_example :
    (Envelope.build emptyContext exRecord).data.url = "https://example.com/main.html" ∧
    (Envelope.build emptyContext exRecord).data.name = "GET https://example.com/main.html" ∧
    (Envelope.build emptyContext exRecord).data.duration = "0.00:00:02.0000000" ∧
    (Envelope.build emptyContext exRecord).data.success = true :=
  ⟨rfl, rfl, rfl, rfl⟩

/-- C9: every map mutation available on a record, insertion through the
mutable properties, tags or measurements references, leaves id, name, uri,
duration, response code and timestamp unchanged. -/
theorem mutators_frame (t : RequestTelemetry) (k v : String) (x : Float) :
    (t.insertProperty k v).id = t.id ∧ (t.insertProperty k v).name = t.name ∧
    (t.insertProperty k v).uri = t.uri ∧ (t.insertProperty k v).duration = t.duration ∧
    (t.insertProperty k v).response_code = t.response_code ∧
    (t.insertProperty k v).timestamp = t.timestamp ∧
    (t.insertTag k v).id = t.id ∧ (t.insertTag k v).name = t.name ∧
    (t.insertTag k v).uri = t.uri ∧ (t.insertTag k v).duration = t.duration ∧
    (t.insertTag k v).response_code = t.response_code ∧
    (t.insertTag k v).timestamp = t.timestamp ∧
    (t.insertMeasurement k x).id = t.id ∧ (t.insertMeasurement k x).name = t.name ∧
    (t.insertMeasurement k x).uri = t.uri ∧ (t.insertMeasurement k x).duration = t.duration ∧
    (t.insertMeasurement k x).response_code = t.response_code ∧
    (t.insertMeasurement k x).timestamp = t.timestamp :=
  ⟨rfl, rfl, rfl, rfl, rfl, rfl, rfl, rfl, rfl, rfl, rfl, rfl, rfl, rfl, rfl, rfl, rfl, rfl⟩

/-- C10: whenever the URI rebuild fails, the record retains the original URI,
query string included, and the url field of the envelope renders that
original URI, so the wire url may contain a query string. -/
theorem rebuild_failure_keeps_query (m : Method) (u : Uri) (d : Duration) (c : Nat)
    (i : String) (ts : DateTime) (context : TelemetryContext)
    (h : rebuildUri u = none) :
    (RequestTelemetry.new m u d c i ts).uri = u ∧
    (Envelope.build context (RequestTelemetry.new m u d c i ts)).data.url = u.toString := by
  constructor
  · simp [RequestTelemetry.new, h]
  · simp [Envelope.build, RequestTelemetry.new, h]

theorem rebuild_failure_keeps_query_witness :
    (RequestTelemetry.new Method.GET uF (Duration.from_secs 2) 200 "id0" ts0).uri = uF ∧
    (Envelope.build emptyContext
      (RequestTelemetry.new Method.GET uF (Duration.from_secs 2) 200 "id0" ts0)).data.url
      = uF.toString :=
  rebuild_failure_keeps_query Method.GET uF (Duration.from_secs 2) 200 "id0" ts0
    emptyContext (by decide)

end AppInsights
